import Mathlib

/-!
Shallow embedding of the file-ingestion and Drive-sync pipeline of the
referral-system backend (FileService in src/unnamed/part_003, DriveService in
src/referral-system/backend/src/drive/drive.service.ts, NotificationService in
src/referral-system/backend/src/notifications/notification.service.ts).

Databases are modelled as lists of records, the remote Drive as a list of
folder nodes plus an effect trace, the local disk as a path-to-bytes map, and
the external collaborators (scanner, Drive API upload and the event-loop
timing of the background tasks) as explicit environment parameters.
-/

namespace RefSys

/-- The virusScanStatus values used by FileService (string enum in Prisma). -/
inductive VScan where
  | pending
  | scanning
  | clean
  | infected
  | error
deriving DecidableEq, Repr

/-- The DriveSyncStatus enum of the Prisma schema. -/
inductive DSync where
  | PENDING
  | SYNCING
  | SYNCED
  | FAILED
deriving DecidableEq, Repr

/-- The DriveSyncAction enum; only UPLOAD is used by the code under src. -/
inductive SyncAction where
  | UPLOAD
deriving DecidableEq, Repr

/-- One row of the File table, with the fields the claims are about. -/
structure FileRec where
  id : String
  submissionId : String
  originalFilename : String
  filePath : String
  fileSize : Nat
  mimeType : String
  virusScanStatus : VScan
  virusScanResult : Option String
  driveSyncStatus : DSync
  driveSyncAttempts : Nat
  googleDriveId : Option String
  googleDriveUrl : Option String
  driveSyncError : Option String
  deletedAt : Option Nat
deriving DecidableEq, Repr

/-- One row of the Submission table (only the fields the sync engine reads). -/
structure SubmissionRec where
  id : String
  referenceId : String
  googleDriveFolderId : Option String
  driveSyncStatus : DSync
  driveSyncError : Option String
deriving DecidableEq, Repr

/-- One row of the User table (read by the notification collaborator). -/
structure UserRec where
  id : String
  role : String
  isActive : Bool
deriving DecidableEq, Repr

/-- One row of the DriveSyncLog table: one immutable row per logged event. -/
structure LogRec where
  fileId : String
  action : SyncAction
  status : String
  attemptNumber : Nat
  errorMessage : Option String
deriving DecidableEq, Repr

/-- The relational state: file rows, submission rows, the append-only sync
log, user rows, and the list of sync-failure alerts that the notification
collaborator has produced (admin id, submission id, error text). -/
structure DB where
  files : List FileRec
  submissions : List SubmissionRec
  syncLog : List LogRec
  users : List UserRec
  alertsSent : List (String × String × String)
deriving DecidableEq, Repr

/-- The local disk: a finite map from path to byte content. -/
abbrev Disk := List (String × List Nat)

def diskGet (d : Disk) (p : String) : Option (List Nat) :=
  (d.find? (fun e => e.1 == p)).map (fun e => e.2)

def diskSet (d : Disk) (p : String) (v : List Nat) : Disk :=
  (d.filter (fun e => !(e.1 == p))) ++ [(p, v)]

def diskRemove (d : Disk) (p : String) : Disk :=
  d.filter (fun e => !(e.1 == p))

/-- A remote call made against the Drive API: a children query, a folder
creation, or a file upload into a folder. -/
inductive DriveCall where
  | query (name parent : String)
  | create (name parent : String)
  | upload (parent : String)
deriving DecidableEq, Repr

def DriveCall.isCreate : DriveCall → Bool
  | .create _ _ => true
  | _ => false

/-- One remote folder node. -/
structure DriveFolder where
  id : String
  name : String
  parent : String
deriving DecidableEq, Repr

/-- The remote Drive state: the folder tree, a counter for fresh folder ids,
and the trace of every remote call that was made. -/
structure DriveState where
  folders : List DriveFolder
  nextId : Nat
  trace : List DriveCall
deriving DecidableEq, Repr

def findFile (db : DB) (id : String) : Option FileRec :=
  db.files.find? (fun f => f.id == id)

def findSubmission (db : DB) (id : String) : Option SubmissionRec :=
  db.submissions.find? (fun s => s.id == id)

/-- prisma.file.update: rewrite the row (or rows) with the given id. -/
def updateFile (db : DB) (id : String) (g : FileRec → FileRec) : DB :=
  { db with files := db.files.map (fun f => if f.id == id then g f else f) }

/-- prisma.submission.update: rewrite the row (or rows) with the given id. -/
def updateSubmission (db : DB) (id : String) (g : SubmissionRec → SubmissionRec) : DB :=
  { db with submissions := db.submissions.map (fun s => if s.id == id then g s else s) }

/-!
## Node path helpers

FileService calls path.extname and path.basename on strings from which all
slashes have already been removed, so the basename of the whole string is the
string itself.  extname below follows the Node algorithm on slash-free input:
the extension starts at the last dot, except when there is no dot, the last
dot is the first character, or the whole string is exactly two dots.
-/

namespace NodePath

def lastDotIdx (cs : List Char) : Option Nat :=
  ((cs.enum.filter (fun p => p.2 == '.')).map (fun p => p.1)).getLast?

def extname (cs : List Char) : List Char :=
  match lastDotIdx cs with
  | none => []
  | some i =>
    if i = 0 then []
    else if cs = ['.', '.'] then []
    else cs.drop i

/-- path.basename(p, ext) on slash-free p: strip ext when it is a proper,
shorter suffix of p; when p equals ext nothing is stripped (Node behavior). -/
def basenameDropExt (cs ext : List Char) : List Char :=
  if ext ≠ [] ∧ ext.length < cs.length ∧ ext.isSuffixOf cs then
    cs.take (cs.length - ext.length)
  else cs

end NodePath

/-!
## FileService (src/unnamed/part_003)
-/

namespace FileService

def MAX_FILE_SIZE : Nat := 50 * 1024 * 1024

def MAX_TOTAL_SIZE : Nat := 200 * 1024 * 1024

def MAX_FILES_PER_SUBMISSION : Nat := 10

def ALLOWED_MIMETYPES : List String :=
  [ "application/vnd.openxmlformats-officedocument.wordprocessingml.document"
  , "application/msword"
  , "application/vnd.openxmlformats-officedocument.presentationml.presentation"
  , "application/vnd.ms-powerpoint"
  , "application/vnd.openxmlformats-officedocument.spreadsheetml.sheet"
  , "application/vnd.ms-excel"
  , "application/pdf"
  , "image/jpeg"
  , "image/png"
  , "image/gif"
  , "text/plain"
  ]

/-- First replace of sanitizeFilename: the regex literal written in the
source is a character class holding the forward slash, the backslash
(written twice as an escape), and the literal digit zero, with the global
flag, so every occurrence of those three characters is removed. -/
def stripClassChars (cs : List Char) : List Char :=
  cs.filter (fun c => !(c == '/' || c == '\\' || c == '0'))

/-- Second replace of sanitizeFilename: the regex matches, at the start of
the string, a literal backslash followed by one or more characters other
than a line terminator, and removes that match.  It therefore fires only
when the string still begins with a backslash. -/
def stripLeadingBackslashRun (cs : List Char) : List Char :=
  match cs with
  | '\\' :: rest =>
    let run := rest.takeWhile (fun c => !(c == '\n' || c == '\r'))
    if run.length = 0 then '\\' :: rest else rest.drop run.length
  | other => other

def sanitizeChars (cs : List Char) : List Char :=
  let s1 := stripClassChars cs
  let s2 := stripLeadingBackslashRun s1
  let maxLength : Nat := 255
  let s3 :=
    if s2.length > maxLength then
      let ext := NodePath.extname s2
      let nm := NodePath.basenameDropExt s2 ext
      nm.take (maxLength - ext.length) ++ ext
    else s2
  if s3 = [] then ['f', 'i', 'l', 'e'] else s3

/-- FileService.sanitizeFilename. -/
def sanitizeFilename (s : String) : String :=
  String.mk (sanitizeChars s.data)

end FileService

/-- The body of an upload request; buffer is the uploaded byte content. -/
structure UploadDto where
  submissionId : String
  originalFilename : String
  mimeType : String
  buffer : List Nat
deriving DecidableEq, Repr

namespace FileService

def uploadDir : String := "uploads"

/-- prisma.file.count for a submission, deletedAt null. -/
def fileCount (db : DB) (sid : String) : Nat :=
  (db.files.filter (fun f => f.submissionId == sid && f.deletedAt == none)).length

/-- FileService.validateTotalSize.  Defined in the source, but uploadFile
never invokes it. -/
def validateTotalSize (db : DB) (sid : String) (newFileSize : Nat) :
    Except String Unit :=
  let rows := db.files.filter (fun f => f.submissionId == sid && f.deletedAt == none)
  let totalSize := (rows.map (fun f => f.fileSize)).foldl (fun a b => a + b) 0 + newFileSize
  if totalSize > MAX_TOTAL_SIZE then
    Except.error "Total file size exceeds maximum of 200MB"
  else
    Except.ok ()

/-- The storage path uploadFile publishes: the same path the created record
carries, that getFileStream later reads, and that the single writeFile call
targets directly. -/
def publishedPath (dto : UploadDto) (uuid : String) : String :=
  uploadDir ++ "/" ++ uuid
    ++ String.mk (NodePath.extname (sanitizeFilename dto.originalFilename).data)

/-- FileService.uploadFile, the synchronous part up to and including record
creation (the two queued background tasks are modelled by runChain below).
uuid stands for the generated uuidv4.  writeFault models the outcome of the
single fs.promises.writeFile call, which targets the final path directly:
none is a completed write, some k is an I/O failure after k bytes reached
that path, which then propagates as an error with no record created. -/
def uploadFile (dto : UploadDto) (db : DB) (disk : Disk) (uuid : String)
    (writeFault : Option Nat) : Disk × DB × Except String FileRec :=
  if fileCount db dto.submissionId ≥ MAX_FILES_PER_SUBMISSION then
    (disk, db, Except.error "Maximum 10 files allowed per submission")
  else if dto.buffer.length > MAX_FILE_SIZE then
    (disk, db, Except.error "File size exceeds maximum of 50MB")
  else if !(ALLOWED_MIMETYPES.contains dto.mimeType) then
    (disk, db, Except.error ("File type " ++ dto.mimeType ++ " is not allowed"))
  else
    let sanitizedFilename := sanitizeFilename dto.originalFilename
    let filePath := publishedPath dto uuid
    match writeFault with
    | some k =>
      (diskSet disk filePath (dto.buffer.take k), db, Except.error "I/O write failed")
    | none =>
      let disk2 := diskSet disk filePath dto.buffer
      let r : FileRec :=
        { id := uuid
        , submissionId := dto.submissionId
        , originalFilename := sanitizedFilename
        , filePath := filePath
        , fileSize := dto.buffer.length
        , mimeType := dto.mimeType
        , virusScanStatus := VScan.pending
        , virusScanResult := none
        , driveSyncStatus := DSync.PENDING
        , driveSyncAttempts := 0
        , googleDriveId := none
        , googleDriveUrl := none
        , driveSyncError := none
        , deletedAt := none }
      (disk2, { db with files := db.files ++ [r] }, Except.ok r)

end FileService

/-- An empty relational state. -/
def dbEmpty : DB :=
  { files := [], submissions := [], syncLog := [], users := [], alertsSent := [] }

/-!
## DriveService (src/referral-system/backend/src/drive/drive.service.ts)
-/

namespace DriveService

def rootFolderId : String := "root"

/-- The drive.files.list children query: exact name under the given parent,
returning the id of the first hit. -/
def findChild (ds : DriveState) (name parent : String) : Option String :=
  ((ds.folders.filter (fun f => f.name == name && f.parent == parent)).head?).map
    (fun f => f.id)

/-- DriveService.createFolder: one drive.files.create call producing a fresh
folder node under the parent. -/
def createFolder (name parent : String) (ds : DriveState) : DriveState × String :=
  let fid := "folder" ++ toString ds.nextId
  ({ folders := ds.folders ++ [{ id := fid, name := name, parent := parent }]
   , nextId := ds.nextId + 1
   , trace := ds.trace ++ [DriveCall.create name parent] }, fid)

/-- DriveService.getOrCreateFolder: query existing children by exact name,
reuse the first hit, otherwise create.  No lock guards the query-then-create
sequence. -/
def getOrCreateFolder (name parent : String) (ds : DriveState) : DriveState × String :=
  let ds1 : DriveState := { ds with trace := ds.trace ++ [DriveCall.query name parent] }
  match findChild ds name parent with
  | some fid => (ds1, fid)
  | none => createFolder name parent ds1

/-- DriveService.createSubmissionFolder: the year and month segments resolve
through getOrCreateFolder, then the leaf reference-code folder is created
with a plain createFolder call, and the submission row is updated with the
new folder id.  year and month stand for the strings the source derives
from the current date. -/
def createSubmissionFolder (year month submissionId referenceId : String)
    (db : DB) (ds : DriveState) : DB × DriveState × String :=
  let p1 := getOrCreateFolder year rootFolderId ds
  let p2 := getOrCreateFolder month p1.2 p1.1
  let p3 := createFolder referenceId p2.2 p2.1
  let db1 := updateSubmission db submissionId (fun s =>
    { s with googleDriveFolderId := some p3.2, driveSyncStatus := DSync.SYNCED })
  (db1, p3.1, p3.2)

/-- DriveService.logDriveSync: append one immutable row to the sync ledger. -/
def logDriveSync (db : DB) (fileId : String) (action : SyncAction) (status : String)
    (attemptNumber : Nat) (errorMessage : Option String) : DB :=
  { db with syncLog := db.syncLog ++
      [{ fileId := fileId, action := action, status := status
       , attemptNumber := attemptNumber, errorMessage := errorMessage }] }

def maxRetries : Nat := 3

/-- The row write at the head of every attempt: status SYNCING and the
attempt counter. -/
def markSyncing (attempt : Nat) (f : FileRec) : FileRec :=
  { f with driveSyncStatus := DSync.SYNCING, driveSyncAttempts := attempt }

/-- The row write after a successful upload: the Drive id and link, status
SYNCED, and the error cleared. -/
def markSynced (pr : String × String) (f : FileRec) : FileRec :=
  { f with googleDriveId := some pr.1, googleDriveUrl := some pr.2
         , driveSyncStatus := DSync.SYNCED, driveSyncError := none }

/-- The row write after the final failure: status FAILED with the last
error persisted. -/
def markFailed (msg : String) (f : FileRec) : FileRec :=
  { f with driveSyncStatus := DSync.FAILED, driveSyncError := some msg }

/-- The retry loop of DriveService.uploadFile over the remaining attempt
numbers.  upl gives the outcome of the performUpload remote call at each
attempt number; every attempt marks the row SYNCING with its attempt count,
logs a started row, makes the remote call, then logs a success or failed
row.  When the attempts run out the row is marked FAILED with the last
error persisted, and the error is rethrown. -/
def uploadAttempts (upl : Nat → Except String (String × String))
    (fileId folderId : String) :
    List Nat → DB → DriveState → Option String →
    DB × DriveState × Except String (String × String)
  | [], db, ds, lastError =>
    let msg := lastError.getD "Upload failed after retries"
    let db1 := updateFile db fileId (markFailed msg)
    (db1, ds, Except.error msg)
  | attempt :: rest, db, ds, _ =>
    let db1 := updateFile db fileId (markSyncing attempt)
    let db2 := logDriveSync db1 fileId SyncAction.UPLOAD "started" attempt none
    let ds1 : DriveState := { ds with trace := ds.trace ++ [DriveCall.upload folderId] }
    match upl attempt with
    | Except.ok pr =>
      let db3 := updateFile db2 fileId (markSynced pr)
      let db4 := logDriveSync db3 fileId SyncAction.UPLOAD "success" attempt none
      (db4, ds1, Except.ok pr)
    | Except.error e =>
      let db3 := logDriveSync db2 fileId SyncAction.UPLOAD "failed" attempt (some e)
      uploadAttempts upl fileId folderId rest db3 ds1 (some e)

/-- The Drive folder id of the owning submission, as uploadFile reads it. -/
def submissionFolder (db : DB) (sid : String) : Option String :=
  match findSubmission db sid with
  | none => none
  | some s => s.googleDriveFolderId

/-- DriveService.uploadFile: fails with a folder-not-found error before any
remote call or row change when the owning submission has no provisioned
Drive folder, otherwise runs the retry loop over attempts 1..3. -/
def uploadFile (upl : Nat → Except String (String × String))
    (submissionId fileId : String) (db : DB) (ds : DriveState) :
    DB × DriveState × Except String (String × String) :=
  match submissionFolder db submissionId with
  | none => (db, ds, Except.error "Submission Drive folder not found")
  | some folderId =>
    uploadAttempts upl fileId folderId (List.range' 1 maxRetries) db ds none

/-- DriveService.retryFailedSync: only valid when the row is FAILED. -/
def retryFailedSync (upl : Nat → Except String (String × String)) (fileId : String)
    (db : DB) (ds : DriveState) : DB × DriveState × Except String (String × String) :=
  match findFile db fileId with
  | none => (db, ds, Except.error "File not found")
  | some f =>
    if f.driveSyncStatus ≠ DSync.FAILED then
      (db, ds, Except.error "File is not in failed state")
    else
      uploadFile upl f.submissionId fileId db ds

/-- Model of toFixed(2) followed by parseFloat on an exact rational: round
to two decimal places. -/
def toFixed2 (q : ℚ) : ℚ := (round (q * 100) : ℚ) / 100

structure SyncStats where
  totalFiles : Nat
  syncedFiles : Nat
  failedFiles : Nat
  pendingFiles : Nat
  syncingFiles : Int
  syncSuccessRate : ℚ
deriving DecidableEq, Repr

def countStatus (db : DB) (st : DSync) : Nat :=
  (db.files.filter (fun f => f.driveSyncStatus == st)).length

/-- DriveService.getSyncStats: prisma.file.count calls with no deletedAt
filter, the syncing count derived by subtraction, and the success rate as a
percentage of total files, 0 when there are no rows. -/
def getSyncStats (db : DB) : SyncStats :=
  let totalFiles := db.files.length
  let syncedFiles := countStatus db DSync.SYNCED
  let failedFiles := countStatus db DSync.FAILED
  let pendingFiles := countStatus db DSync.PENDING
  { totalFiles := totalFiles
  , syncedFiles := syncedFiles
  , failedFiles := failedFiles
  , pendingFiles := pendingFiles
  , syncingFiles := (totalFiles : Int) - syncedFiles - failedFiles - pendingFiles
  , syncSuccessRate :=
      if totalFiles > 0 then toFixed2 (((syncedFiles : ℚ) / totalFiles) * 100) else 0 }

end DriveService

/-- Modelled from the words of the spec, for comparison in claim C7: the
aggregation the claim describes, over non-deleted files only, with
successRate the plain ratio synced over total, 0 when total is 0. -/
def getSyncStatsPerSpec (db : DB) : DriveService.SyncStats :=
  let live := db.files.filter (fun f => f.deletedAt == none)
  let totalFiles := live.length
  let syncedFiles := (live.filter (fun f => f.driveSyncStatus == DSync.SYNCED)).length
  let failedFiles := (live.filter (fun f => f.driveSyncStatus == DSync.FAILED)).length
  let pendingFiles := (live.filter (fun f => f.driveSyncStatus == DSync.PENDING)).length
  { totalFiles := totalFiles
  , syncedFiles := syncedFiles
  , failedFiles := failedFiles
  , pendingFiles := pendingFiles
  , syncingFiles := (totalFiles : Int) - syncedFiles - failedFiles - pendingFiles
  , syncSuccessRate := if totalFiles = 0 then 0 else (syncedFiles : ℚ) / totalFiles }

/-!
## NotificationService
(src/referral-system/backend/src/notifications/notification.service.ts)
-/

namespace NotificationService

/-- NotificationService.sendDriveSyncFailureAlert: one alert per active
admin user (the email and the in-app notification are collapsed into one
recorded entry), a no-op when the submission does not exist. -/
def sendDriveSyncFailureAlert (db : DB) (submissionId errText : String) : DB :=
  match findSubmission db submissionId with
  | none => db
  | some _ =>
    let admins := db.users.filter (fun u => u.role == "ADMIN" && u.isActive)
    { db with alertsSent :=
        db.alertsSent ++ admins.map (fun a => (a.id, submissionId, errText)) }

end NotificationService

/-- Upload request used in the claim C3 counterexample. -/
def c3dto : UploadDto :=
  { submissionId := "s1", originalFilename := "a.txt"
  , mimeType := "text/plain", buffer := [7, 7] }

/-- A 50MB clean file row belonging to submission s8. -/
def c8file (n : String) : FileRec :=
  { id := n, submissionId := "s8", originalFilename := n
  , filePath := "uploads/" ++ n, fileSize := 50 * 1024 * 1024
  , mimeType := "application/pdf", virusScanStatus := VScan.clean
  , virusScanResult := none, driveSyncStatus := DSync.PENDING
  , driveSyncAttempts := 0, googleDriveId := none, googleDriveUrl := none
  , driveSyncError := none, deletedAt := none }

/-- A submission already holding 200MB across four files. -/
def c8db : DB :=
  { files := [c8file "f1", c8file "f2", c8file "f3", c8file "f4"]
  , submissions := [], syncLog := [], users := [], alertsSent := [] }

/-- A one-byte upload that pushes the total over the 200MB ceiling. -/
def c8dto : UploadDto :=
  { submissionId := "s8", originalFilename := "big.pdf"
  , mimeType := "application/pdf", buffer := [0] }

/-!
## The background chain of one file
(FileService.scanFileAsync and FileService.uploadToDriveAsync)

uploadFile queues both tasks at once.  The sync task does not wait for a
completion signal: it polls the row in a loop of at most 30 one-second
sleeps and then proceeds only when it reads a clean status.  Time is
modelled in the one-second granularity of that loop; the scanner and the
event loop are abstracted into an explicit environment.
-/

namespace FileService

/-- The verdict the external scanner eventually delivers. -/
inductive ScanOutcome where
  | clean
  | infected (signature : String)
  | failed (msg : String)
deriving DecidableEq, Repr

/-- The environment of one file background chain: the scanner verdict, the
tick at which the scan task finishes and writes that verdict, and the
outcome of the Drive upload call at each attempt number. -/
structure ChainEnv where
  outcome : ScanOutcome
  scanTicks : Nat
  upl : Nat → Except String (String × String)

/-- The virusScanStatus the sync task reads from the row at a given tick:
scanning until the scan task finishes, then the verdict. -/
def scanStatusAt (env : ChainEnv) (t : Nat) : VScan :=
  if t < env.scanTicks then VScan.scanning
  else match env.outcome with
    | ScanOutcome.clean => VScan.clean
    | ScanOutcome.infected _ => VScan.infected
    | ScanOutcome.failed _ => VScan.error

/-- The wait loop of uploadToDriveAsync: up to the given number of
iterations, each sleeping one second and re-reading the row, breaking only
on a clean or error status (an infected verdict never breaks the loop).
Returns the tick at which the loop ends. -/
def pollLoop (env : ChainEnv) : Nat → Nat → Nat
  | 0, t => t
  | Nat.succ k, t =>
    let t1 := t + 1
    let st := scanStatusAt env t1
    if st = VScan.clean ∨ st = VScan.error then t1 else pollLoop env k t1

/-- The tick at which uploadToDriveAsync re-reads the row before deciding:
immediately when the first read already shows a finished scan, otherwise
when the 30-iteration poll loop ends. -/
def refetchTick (env : ChainEnv) : Nat :=
  if scanStatusAt env 0 = VScan.pending ∨ scanStatusAt env 0 = VScan.scanning then
    pollLoop env 30 0
  else 0

/-- The row write of scanFileAsync for a given verdict. -/
def recordVerdict (o : ScanOutcome) (f : FileRec) : FileRec :=
  match o with
  | ScanOutcome.clean =>
    { f with virusScanStatus := VScan.clean
           , virusScanResult := some "No threats detected" }
  | ScanOutcome.infected sig =>
    { f with virusScanStatus := VScan.infected, virusScanResult := some sig }
  | ScanOutcome.failed m =>
    { f with virusScanStatus := VScan.error, virusScanResult := some m }

/-- The writes of scanFileAsync once the scan finishes: the verdict and the
detail text are stored, and an infected file is removed from disk. -/
def applyScan (env : ChainEnv) (fileId filePath : String) (db : DB) (disk : Disk) :
    DB × Disk :=
  (updateFile db fileId (recordVerdict env.outcome)
  , match env.outcome with
    | ScanOutcome.infected _ => diskRemove disk filePath
    | _ => disk)

/-- FileService.uploadToDriveAsync after its wait: re-read the row, return
without uploading unless the scan status is clean, otherwise hand the file
to DriveService.uploadFile; an error thrown there is caught and only
logged. -/
def uploadToDriveAsync (env : ChainEnv) (fileId : String) (db : DB) (ds : DriveState) :
    DB × DriveState :=
  match findFile db fileId with
  | none => (db, ds)
  | some f =>
    if scanStatusAt env (refetchTick env) = VScan.clean then
      let out := DriveService.uploadFile env.upl f.submissionId fileId db ds
      (out.1, out.2.1)
    else (db, ds)

/-- The complete background chain queued for one file: the scan task and
the polling sync task composed to the final quiescent state (the two tasks
write disjoint fields of the row, and the sync task reads the verdict only
through the timed view scanStatusAt). -/
def runChain (env : ChainEnv) (fileId filePath : String) (db : DB) (disk : Disk)
    (ds : DriveState) : DB × Disk × DriveState :=
  let p := applyScan env fileId filePath db disk
  let q := uploadToDriveAsync env fileId p.1 ds
  (q.1, p.2, q.2)

end FileService

/-- The driveSyncStatus of a row, as an observer. -/
def syncStatusOf (db : DB) (fid : String) : Option DSync :=
  (findFile db fid).map (fun f => f.driveSyncStatus)

/-- The driveSyncError of a row, as an observer. -/
def syncErrorOf (db : DB) (fid : String) : Option (Option String) :=
  (findFile db fid).map (fun f => f.driveSyncError)

/-- The virusScanStatus of a row, as an observer. -/
def scanStatusOf (db : DB) (fid : String) : Option VScan :=
  (findFile db fid).map (fun f => f.virusScanStatus)

/-!
## Concrete states and environments used by the scenario theorems
-/

/-- A pending file row belonging to submission sA. -/
def chainFile : FileRec :=
  { id := "fA", submissionId := "sA", originalFilename := "doc.pdf"
  , filePath := "uploads/fA.pdf", fileSize := 3, mimeType := "application/pdf"
  , virusScanStatus := VScan.pending, virusScanResult := none
  , driveSyncStatus := DSync.PENDING, driveSyncAttempts := 0
  , googleDriveId := none, googleDriveUrl := none, driveSyncError := none
  , deletedAt := none }

/-- The owning submission, with a provisioned Drive folder. -/
def chainSub : SubmissionRec :=
  { id := "sA", referenceId := "REF-1", googleDriveFolderId := some "folderA"
  , driveSyncStatus := DSync.SYNCED, driveSyncError := none }

/-- One active admin user, so that an invoked alert would be recorded. -/
def adminUser : UserRec := { id := "admin1", role := "ADMIN", isActive := true }

/-- The state holding chainFile, chainSub and adminUser. -/
def chainDB : DB :=
  { files := [chainFile], submissions := [chainSub], syncLog := []
  , users := [adminUser], alertsSent := [] }

/-- A Drive state holding only the provisioned submission folder. -/
def dsA : DriveState :=
  { folders := [{ id := "folderA", name := "REF-1", parent := "m" }]
  , nextId := 0, trace := [] }

/-- An empty Drive state. -/
def dsEmpty : DriveState := { folders := [], nextId := 0, trace := [] }

/-- A chain whose scan is clean at once and whose upload fails at every
attempt. -/
def envAllFail : FileService.ChainEnv :=
  { outcome := FileService.ScanOutcome.clean, scanTicks := 0
  , upl := fun n => Except.error ("boom" ++ toString n) }

/-- A chain whose scan is clean at once and whose upload fails twice and
then succeeds. -/
def envFFS : FileService.ChainEnv :=
  { outcome := FileService.ScanOutcome.clean, scanTicks := 0
  , upl := fun n =>
      if n < 3 then Except.error ("fail" ++ toString n)
      else Except.ok ("gid", "glink") }

/-- A chain whose scan is clean but finishes one tick after the 30-tick
poll ceiling, with an upload that would succeed immediately. -/
def envLateClean : FileService.ChainEnv :=
  { outcome := FileService.ScanOutcome.clean, scanTicks := 31
  , upl := fun _ => Except.ok ("gid", "glink") }

/-- A chain whose scan finds an infection after two ticks. -/
def envInfected : FileService.ChainEnv :=
  { outcome := FileService.ScanOutcome.infected "Eicar-Test", scanTicks := 2
  , upl := fun _ => Except.ok ("gid", "glink") }

/-- A state for the repeated folder-resolution scenario. -/
def c2db : DB :=
  { files := []
  , submissions := [{ id := "sub1", referenceId := "REF-9"
                    , googleDriveFolderId := none
                    , driveSyncStatus := DSync.PENDING, driveSyncError := none }]
  , syncLog := [], users := [], alertsSent := [] }

/-- First run of createSubmissionFolder for sub1. -/
def c2run1 : DB × DriveState × String :=
  DriveService.createSubmissionFolder "2026" "October" "sub1" "REF-9" c2db dsEmpty

/-- Second, identical run of createSubmissionFolder for sub1. -/
def c2run2 : DB × DriveState × String :=
  DriveService.createSubmissionFolder "2026" "October" "sub1" "REF-9" c2run1.1 c2run1.2.1

/-- The createFolder calls in a trace that carry a given folder name. -/
def createCallsFor (ds : DriveState) (name : String) : Nat :=
  (ds.trace.filter (fun c => match c with
    | DriveCall.create n _ => n == name
    | _ => false)).length

/-- A state whose only file row is soft deleted and synced. -/
def c7db : DB :=
  { files := [{ c8file "fD" with deletedAt := some 5, driveSyncStatus := DSync.SYNCED }]
  , submissions := [], syncLog := [], users := [], alertsSent := [] }

/-- A pending file row with chosen ids, as uploadFile creates it. -/
def initFile (fid sid : String) : FileRec :=
  { id := fid, submissionId := sid, originalFilename := "doc.pdf"
  , filePath := "uploads/x.pdf", fileSize := 3, mimeType := "application/pdf"
  , virusScanStatus := VScan.pending, virusScanResult := none
  , driveSyncStatus := DSync.PENDING, driveSyncAttempts := 0
  , googleDriveId := none, googleDriveUrl := none, driveSyncError := none
  , deletedAt := none }

/-- A one-file state whose owning submission has a provisioned folder. -/
def initDB (fid sid folderId : String) : DB :=
  { files := [initFile fid sid]
  , submissions := [{ id := sid, referenceId := "R"
                    , googleDriveFolderId := some folderId
                    , driveSyncStatus := DSync.SYNCED, driveSyncError := none }]
  , syncLog := [], users := [], alertsSent := [] }

end RefSys

namespace RefSys

/-- Claim C9 evaluation: sanitizeFilename keeps a leading dot (the
leading-dot regex only matches after a backslash, which the first replace
has already removed), strips the literal digit zero, and keeps the NUL
control character. -/
theorem sanitize_divergences :
    FileService.sanitizeFilename ".hidden" = ".hidden" ∧
    FileService.sanitizeFilename "file10.txt" = "file1.txt" ∧
    FileService.sanitizeFilename (String.mk ['a', Char.ofNat 0, 'b'])
      = String.mk ['a', Char.ofNat 0, 'b'] := by
  refine ⟨?_, ?_, ?_⟩ <;> rfl

/-- Reading a path back after diskSet yields exactly the bytes written. -/
theorem diskGet_diskSet (d : Disk) (p : String) (v : List Nat) :
    diskGet (diskSet d p v) p = some v := by
  unfold diskGet diskSet
  rw [List.find?_append]
  have h : (d.filter (fun e => !(e.1 == p))).find? (fun e => e.1 == p) = none := by
    rw [List.find?_eq_none]
    intro x hx
    have hq := (List.mem_filter.mp hx).2
    simp only [Bool.not_eq_true'] at hq
    simp [hq]
  rw [h]
  simp [List.find?]

/-- Claim C3 counterexample: a writeFile failure after one of two bytes
leaves a partial artifact at the published path (the write targets the
final path directly, there is no temp-write-then-rename), while the error
propagates and no record is created. -/
theorem upload_write_fault_partial_artifact :
    diskGet (FileService.uploadFile c3dto dbEmpty [] "u1" (some 1)).1
        (FileService.publishedPath c3dto "u1") = some [7] ∧
    c3dto.buffer ≠ [7] ∧
    (FileService.uploadFile c3dto dbEmpty [] "u1" (some 1)).2.1 = dbEmpty ∧
    (FileService.uploadFile c3dto dbEmpty [] "u1" (some 1)).2.2
      = Except.error "I/O write failed" := by
  refine ⟨rfl, by decide, rfl, rfl⟩

/-- Claim C3 amended: uploadFile performs a single direct write to the final
published path.  When that write fails after k bytes, the failure propagates,
no record is created, and the k-byte partial artifact remains at the
published path; when it completes, the full buffer is at the published path
and the created record points there. -/
theorem upload_direct_write_behavior
    (dto : UploadDto) (db : DB) (disk : Disk) (uuid : String) (k : Nat)
    (hc : FileService.fileCount db dto.submissionId
            < FileService.MAX_FILES_PER_SUBMISSION)
    (hs : dto.buffer.length ≤ FileService.MAX_FILE_SIZE)
    (hm : FileService.ALLOWED_MIMETYPES.contains dto.mimeType = true) :
    ((FileService.uploadFile dto db disk uuid (some k)).2.1 = db ∧
     (FileService.uploadFile dto db disk uuid (some k)).2.2
        = Except.error "I/O write failed" ∧
     diskGet (FileService.uploadFile dto db disk uuid (some k)).1
        (FileService.publishedPath dto uuid) = some (dto.buffer.take k)) ∧
    (diskGet (FileService.uploadFile dto db disk uuid none).1
        (FileService.publishedPath dto uuid) = some dto.buffer ∧
     ∃ r, (FileService.uploadFile dto db disk uuid none).2.2 = Except.ok r ∧
        r.filePath = FileService.publishedPath dto uuid ∧
        (FileService.uploadFile dto db disk uuid none).2.1
          = { db with files := db.files ++ [r] }) := by
  have h1 : ¬ (FileService.fileCount db dto.submissionId
      ≥ FileService.MAX_FILES_PER_SUBMISSION) := by omega
  have h2 : ¬ (dto.buffer.length > FileService.MAX_FILE_SIZE) := by omega
  have h3 : ¬ ((!FileService.ALLOWED_MIMETYPES.contains dto.mimeType) = true) := by
    simp only [hm, Bool.not_true]
    exact Bool.false_ne_true
  unfold FileService.uploadFile
  simp only [if_neg h1, if_neg h2, if_neg h3]
  refine ⟨⟨trivial, trivial, ?_⟩, ?_, ?_⟩
  · exact diskGet_diskSet disk (FileService.publishedPath dto uuid) (dto.buffer.take k)
  · exact diskGet_diskSet disk (FileService.publishedPath dto uuid) dto.buffer
  · exact ⟨_, rfl, rfl, rfl⟩

/-!
## Helper lemmas about the row and state operations
-/

/-- logDriveSync only appends to the ledger: file rows are untouched. -/
@[simp]
theorem findFile_logDriveSync (db : DB) (fid fid2 : String) (a : SyncAction)
    (st : String) (n : Nat) (msg : Option String) :
    findFile (DriveService.logDriveSync db fid2 a st n msg) fid = findFile db fid := rfl

/-- logDriveSync leaves the recorded alerts untouched. -/
@[simp]
theorem alertsSent_logDriveSync (db : DB) (fid2 : String) (a : SyncAction)
    (st : String) (n : Nat) (msg : Option String) :
    (DriveService.logDriveSync db fid2 a st n msg).alertsSent = db.alertsSent := rfl

/-- updateFile leaves the recorded alerts untouched. -/
@[simp]
theorem alertsSent_updateFile (db : DB) (id : String) (g : FileRec → FileRec) :
    (updateFile db id g).alertsSent = db.alertsSent := rfl

/-- Rewriting the rows with a given id and then looking that id up yields
the rewritten row, provided the rewrite preserves the id field. -/
theorem find?_map_update (l : List FileRec) (id : String) (g : FileRec → FileRec)
    (hg : ∀ f, (g f).id = f.id) :
    (l.map (fun f => if f.id == id then g f else f)).find? (fun f => f.id == id)
      = (l.find? (fun f => f.id == id)).map g := by
  induction l with
  | nil => rfl
  | cons a t ih =>
    simp only [List.map_cons]
    by_cases h : (a.id == id) = true
    · have hga : ((g a).id == id) = true := by rw [hg a]; exact h
      simp [List.find?_cons, h, hga]
    · have h' : (a.id == id) = false := by simpa using h
      simp only [h', List.find?_cons, Bool.false_eq_true, if_false]
      exact ih

/-- findFile after updateFile at the same id. -/
@[simp]
theorem findFile_updateFile (db : DB) (id : String) (g : FileRec → FileRec)
    (hg : ∀ f, (g f).id = f.id) :
    findFile (updateFile db id g) id = (findFile db id).map g :=
  find?_map_update db.files id g hg

/-- The retry loop never reads or writes remote folders: it leaves the
folder tree unchanged and adds no createFolder call to the trace. -/
theorem uploadAttempts_no_folder_calls (upl : Nat → Except String (String × String))
    (fid folderId : String) (l : List Nat) (db : DB) (ds : DriveState)
    (le : Option String) :
    (DriveService.uploadAttempts upl fid folderId l db ds le).2.1.folders = ds.folders ∧
    (DriveService.uploadAttempts upl fid folderId l db ds le).2.1.trace.filter
        DriveCall.isCreate
      = ds.trace.filter DriveCall.isCreate := by
  induction l generalizing db ds le with
  | nil => exact ⟨rfl, rfl⟩
  | cons a rest ih =>
    simp only [DriveService.uploadAttempts]
    cases hu : upl a with
    | ok pr => simp [List.filter_append, DriveCall.isCreate]
    | error e =>
      refine ⟨(ih _ _ _).1.trans rfl, (ih _ _ _).2.trans ?_⟩
      simp [List.filter_append, DriveCall.isCreate]

/-!
## Claim C10
-/

/-- Claim C10: when the owning submission has no provisioned Drive folder,
the per-file sync upload fails with the folder-not-found error, with no
remote call and no state change; and on every state the per-file upload
path leaves the remote folder tree unchanged and performs no createFolder
call, so remote folders are provisioned only by createSubmissionFolder. -/
theorem drive_upload_requires_provisioned_folder
    (upl : Nat → Except String (String × String)) (sid fid : String)
    (db : DB) (ds : DriveState) :
    (DriveService.submissionFolder db sid = none →
      DriveService.uploadFile upl sid fid db ds
        = (db, ds, Except.error "Submission Drive folder not found")) ∧
    (DriveService.uploadFile upl sid fid db ds).2.1.folders = ds.folders ∧
    (DriveService.uploadFile upl sid fid db ds).2.1.trace.filter DriveCall.isCreate
      = ds.trace.filter DriveCall.isCreate := by
  constructor
  · intro h
    unfold DriveService.uploadFile
    rw [h]
  · unfold DriveService.uploadFile
    cases h : DriveService.submissionFolder db sid with
    | none => exact ⟨rfl, rfl⟩
    | some folderId => exact uploadAttempts_no_folder_calls upl fid folderId _ db ds none

/-- Witness for claim C10 at a concrete state with no provisioned folder. -/
theorem drive_upload_requires_provisioned_folder_witness :
    DriveService.uploadFile (fun _ => Except.ok ("g", "l")) "sub1" "fX" c2db dsEmpty
      = (c2db, dsEmpty, Except.error "Submission Drive folder not found") :=
  (drive_upload_requires_provisioned_folder
      (fun _ => Except.ok ("g", "l")) "sub1" "fX" c2db dsEmpty).1 (by decide)

/-!
## Claim C2
-/

/-- Claim C2 counterexample: running createSubmissionFolder twice for the
same owner in sequence creates the leaf reference-code folder twice: two
remote folders with the same name, two distinct folder ids, and two
createFolder calls for that segment. -/
theorem duplicate_leaf_folder_on_repeat :
    (c2run2.2.1.folders.filter (fun f => f.name == "REF-9")).length = 2 ∧
    c2run2.2.2 ≠ c2run1.2.2 ∧
    createCallsFor c2run2.2.1 "REF-9" = 2 := by
  refine ⟨by decide, by decide, by decide⟩

/-- Claim C2 amended: the year and month segments, resolved through
getOrCreateFolder, are sequentially idempotent: resolving the same
(name, parent) twice in a row returns the same folder id the second time
and creates no further folder; the leaf segment enjoys no such property
because createSubmissionFolder creates it unconditionally, and no lock
exists, so only sequential idempotence of getOrCreateFolder holds. -/
theorem getOrCreateFolder_sequential_idempotent (name parent : String)
    (ds : DriveState) :
    (DriveService.getOrCreateFolder name parent
        (DriveService.getOrCreateFolder name parent ds).1).2
      = (DriveService.getOrCreateFolder name parent ds).2 ∧
    (DriveService.getOrCreateFolder name parent
        (DriveService.getOrCreateFolder name parent ds).1).1.folders
      = (DriveService.getOrCreateFolder name parent ds).1.folders := by
  unfold DriveService.getOrCreateFolder
  cases h : DriveService.findChild ds name parent with
  | some fid =>
    have h2 : DriveService.findChild
        { ds with trace := ds.trace ++ [DriveCall.query name parent] } name parent
        = some fid := h
    simp [h2]
  | none =>
    have hempty : ds.folders.filter (fun f => f.name == name && f.parent == parent)
        = [] := by
      unfold DriveService.findChild at h
      cases hf : ds.folders.filter (fun f => f.name == name && f.parent == parent) with
      | nil => rfl
      | cons a t => rw [hf] at h; simp at h
    simp [DriveService.createFolder, DriveService.findChild, List.filter_append, hempty]

/-!
## Claim C7
-/

/-- Claim C7 counterexample: a state whose only file row is soft deleted
and synced.  getSyncStats still counts it (no deletedAt filter) and reports
a success rate of 100, the percentage, while the aggregation the claim
describes has total 0 and rate 0. -/
theorem stats_count_soft_deleted :
    (DriveService.getSyncStats c7db).totalFiles = 1 ∧
    (c7db.files.filter (fun f => f.deletedAt == none)).length = 0 ∧
    (DriveService.getSyncStats c7db).syncSuccessRate = 100 ∧
    (getSyncStatsPerSpec c7db).totalFiles = 0 ∧
    (getSyncStatsPerSpec c7db).syncSuccessRate = 0 := by
  refine ⟨by decide, by decide, ?_, by decide, ?_⟩
  · have h : (DriveService.getSyncStats c7db).syncSuccessRate
        = DriveService.toFixed2 (((1 : ℚ) / 1) * 100) := rfl
    rw [h]
    norm_num [DriveService.toFixed2]
  · have h : (getSyncStatsPerSpec c7db).syncSuccessRate = 0 := rfl
    exact h

/-- Every row falls in exactly one of the four sync statuses. -/
theorem status_partition (l : List FileRec) :
    l.length = (l.filter (fun f => f.driveSyncStatus == DSync.PENDING)).length
      + (l.filter (fun f => f.driveSyncStatus == DSync.SYNCING)).length
      + (l.filter (fun f => f.driveSyncStatus == DSync.SYNCED)).length
      + (l.filter (fun f => f.driveSyncStatus == DSync.FAILED)).length := by
  induction l with
  | nil => rfl
  | cons a t ih =>
    cases h : a.driveSyncStatus <;> simp [h, ih] <;> omega

/-- Claim C7 amended: getSyncStats aggregates over all file rows including
soft-deleted ones; the per-status counts partition the rows, so the derived
syncing count equals the number of SYNCING rows; the success rate is the
percentage of synced rows among all rows, rounded to two decimals, and 0
when there are no rows at all (no division fault). -/
theorem stats_aggregation_behavior (db : DB) :
    (DriveService.getSyncStats db).totalFiles = db.files.length ∧
    (DriveService.getSyncStats db).syncedFiles = DriveService.countStatus db DSync.SYNCED ∧
    (DriveService.getSyncStats db).syncingFiles
      = (DriveService.countStatus db DSync.SYNCING : Int) ∧
    (db.files = [] → (DriveService.getSyncStats db).syncSuccessRate = 0) ∧
    (0 < db.files.length →
      (DriveService.getSyncStats db).syncSuccessRate
        = DriveService.toFixed2
            (((DriveService.countStatus db DSync.SYNCED : ℚ) / db.files.length) * 100)) := by
  refine ⟨rfl, rfl, ?_, ?_, ?_⟩
  · have hp := status_partition db.files
    show (db.files.length : Int) - DriveService.countStatus db DSync.SYNCED
        - DriveService.countStatus db DSync.FAILED
        - DriveService.countStatus db DSync.PENDING
      = (DriveService.countStatus db DSync.SYNCING : Int)
    unfold DriveService.countStatus
    omega
  · intro h
    have he : (DriveService.getSyncStats db).syncSuccessRate
        = if db.files.length > 0 then
            DriveService.toFixed2
              (((DriveService.countStatus db DSync.SYNCED : ℚ) / db.files.length) * 100)
          else 0 := rfl
    rw [he, h]
    rfl
  · intro h
    have he : (DriveService.getSyncStats db).syncSuccessRate
        = if db.files.length > 0 then
            DriveService.toFixed2
              (((DriveService.countStatus db DSync.SYNCED : ℚ) / db.files.length) * 100)
          else 0 := rfl
    rw [he, if_pos h]

/-- Witness for claim C7 at the empty state and at a one-row state. -/
theorem stats_aggregation_behavior_witness :
    (DriveService.getSyncStats dbEmpty).syncSuccessRate = 0 ∧
    (DriveService.getSyncStats c7db).syncSuccessRate
      = DriveService.toFixed2 (((DriveService.countStatus c7db DSync.SYNCED : ℚ)
          / c7db.files.length) * 100) :=
  ⟨(stats_aggregation_behavior dbEmpty).2.2.2.1 rfl,
   (stats_aggregation_behavior c7db).2.2.2.2 (by decide)⟩

/-!
## Claim C4
-/

/-- Claim C4 counterexample: a clean file whose three upload attempts all
fail ends FAILED with the last error persisted, yet the recorded alerts
stay empty: nothing on the sync path invokes the notification collaborator,
although invoking it on this state (which holds an active admin) would have
changed the state. -/
theorem sync_exhaustion_sends_no_alert :
    syncStatusOf (FileService.runChain envAllFail "fA" "uploads/fA.pdf" chainDB [] dsA).1 "fA"
      = some DSync.FAILED ∧
    syncErrorOf (FileService.runChain envAllFail "fA" "uploads/fA.pdf" chainDB [] dsA).1 "fA"
      = some (some "boom3") ∧
    (FileService.runChain envAllFail "fA" "uploads/fA.pdf" chainDB [] dsA).1.alertsSent = [] ∧
    NotificationService.sendDriveSyncFailureAlert
        (FileService.runChain envAllFail "fA" "uploads/fA.pdf" chainDB [] dsA).1 "sA" "boom3"
      ≠ (FileService.runChain envAllFail "fA" "uploads/fA.pdf" chainDB [] dsA).1 := by
  refine ⟨by decide, by decide, by decide, by decide⟩

/-- Claim C4 amended: when every attempt of the retry loop fails, the sync
engine rethrows the last error, marks the row FAILED with that error
persisted in driveSyncError, and sends no alert: the recorded alerts are
exactly those already present before the call. -/
theorem sync_exhaustion_marks_failed_no_alert
    (upl : Nat → Except String (String × String)) (sid fid : String)
    (db : DB) (ds : DriveState) (folderId : String)
    (hf : DriveService.submissionFolder db sid = some folderId)
    (e1 e2 e3 : String)
    (h1 : upl 1 = Except.error e1) (h2 : upl 2 = Except.error e2)
    (h3 : upl 3 = Except.error e3) :
    (DriveService.uploadFile upl sid fid db ds).2.2 = Except.error e3 ∧
    syncStatusOf (DriveService.uploadFile upl sid fid db ds).1 fid
      = (findFile db fid).map (fun _ => DSync.FAILED) ∧
    syncErrorOf (DriveService.uploadFile upl sid fid db ds).1 fid
      = (findFile db fid).map (fun _ => some e3) ∧
    (DriveService.uploadFile upl sid fid db ds).1.alertsSent = db.alertsSent := by
  have hr : List.range' 1 DriveService.maxRetries = [1, 2, 3] := rfl
  unfold DriveService.uploadFile
  rw [hf, hr]
  simp only [DriveService.uploadAttempts, h1, h2, h3]
  refine ⟨rfl, ?_, ?_, ?_⟩
  · unfold syncStatusOf
    rw [findFile_updateFile _ _ (DriveService.markFailed _) (fun f => rfl),
      findFile_logDriveSync, findFile_logDriveSync,
      findFile_updateFile _ _ (DriveService.markSyncing 3) (fun f => rfl),
      findFile_logDriveSync, findFile_logDriveSync,
      findFile_updateFile _ _ (DriveService.markSyncing 2) (fun f => rfl),
      findFile_logDriveSync, findFile_logDriveSync,
      findFile_updateFile _ _ (DriveService.markSyncing 1) (fun f => rfl)]
    cases findFile db fid <;> rfl
  · unfold syncErrorOf
    rw [findFile_updateFile _ _ (DriveService.markFailed _) (fun f => rfl),
      findFile_logDriveSync, findFile_logDriveSync,
      findFile_updateFile _ _ (DriveService.markSyncing 3) (fun f => rfl),
      findFile_logDriveSync, findFile_logDriveSync,
      findFile_updateFile _ _ (DriveService.markSyncing 2) (fun f => rfl),
      findFile_logDriveSync, findFile_logDriveSync,
      findFile_updateFile _ _ (DriveService.markSyncing 1) (fun f => rfl)]
    cases findFile db fid <;> rfl
  · simp only [alertsSent_updateFile, alertsSent_logDriveSync]

/-- Witness for claim C4 at a concrete always-failing upload. -/
theorem sync_exhaustion_marks_failed_no_alert_witness :
    (DriveService.uploadFile (fun n => Except.error ("boom" ++ toString n)) "sA" "fA"
        chainDB dsA).2.2 = Except.error "boom3" ∧
    (DriveService.uploadFile (fun n => Except.error ("boom" ++ toString n)) "sA" "fA"
        chainDB dsA).1.alertsSent = chainDB.alertsSent := by
  have h := sync_exhaustion_marks_failed_no_alert
    (fun n => Except.error ("boom" ++ toString n)) "sA" "fA" chainDB dsA "folderA"
    (by decide) "boom1" "boom2" "boom3" rfl rfl rfl
  exact ⟨h.1, h.2.2.2⟩

/-!
## Claim C5
-/

/-- Claim C5 counterexample: in the two-failures-then-success scenario the
sync ledger holds six rows for the file, not three: every attempt writes a
started row and an outcome row. -/
theorem retry_scenario_six_log_rows :
    (FileService.runChain envFFS "fA" "uploads/fA.pdf" chainDB [] dsA).1.syncLog.length = 6 ∧
    ¬ ((FileService.runChain envFFS "fA" "uploads/fA.pdf" chainDB [] dsA).1.syncLog.length
        = 3) := by
  refine ⟨by decide, by decide⟩

/-- Claim C5 amended: in the two-failures-then-success scenario the file
ends SYNCED and the ledger holds exactly six rows: a started and an outcome
row per attempt, attempts 1 and 2 marked failed and attempt 3 marked
success. -/
theorem retry_scenario_final_state :
    syncStatusOf (FileService.runChain envFFS "fA" "uploads/fA.pdf" chainDB [] dsA).1 "fA"
      = some DSync.SYNCED ∧
    (FileService.runChain envFFS "fA" "uploads/fA.pdf" chainDB [] dsA).1.syncLog
      = [ { fileId := "fA", action := SyncAction.UPLOAD, status := "started"
          , attemptNumber := 1, errorMessage := none }
        , { fileId := "fA", action := SyncAction.UPLOAD, status := "failed"
          , attemptNumber := 1, errorMessage := some "fail1" }
        , { fileId := "fA", action := SyncAction.UPLOAD, status := "started"
          , attemptNumber := 2, errorMessage := none }
        , { fileId := "fA", action := SyncAction.UPLOAD, status := "failed"
          , attemptNumber := 2, errorMessage := some "fail2" }
        , { fileId := "fA", action := SyncAction.UPLOAD, status := "started"
          , attemptNumber := 3, errorMessage := none }
        , { fileId := "fA", action := SyncAction.UPLOAD, status := "success"
          , attemptNumber := 3, errorMessage := none } ] := by
  refine ⟨by decide, by decide⟩

/-!
## Lemmas about the timed scan view and the poll loop
-/

/-- recordVerdict never changes the row id. -/
theorem recordVerdict_id (o : FileService.ScanOutcome) :
    ∀ f : FileRec, (FileService.recordVerdict o f).id = f.id := by
  intro f; cases o <;> rfl

/-- recordVerdict never changes the sync status. -/
theorem recordVerdict_syncStatus (o : FileService.ScanOutcome) (f : FileRec) :
    (FileService.recordVerdict o f).driveSyncStatus = f.driveSyncStatus := by
  cases o <;> rfl

/-- recordVerdict never changes the owning submission. -/
theorem recordVerdict_submissionId (o : FileService.ScanOutcome) (f : FileRec) :
    (FileService.recordVerdict o f).submissionId = f.submissionId := by
  cases o <;> rfl

/-- The timed view reads clean exactly when the verdict is clean and the
scan has finished by the given tick. -/
theorem scanStatusAt_eq_clean_iff (env : FileService.ChainEnv) (t : Nat) :
    FileService.scanStatusAt env t = VScan.clean ↔
      (env.outcome = FileService.ScanOutcome.clean ∧ env.scanTicks ≤ t) := by
  unfold FileService.scanStatusAt
  by_cases ht : t < env.scanTicks
  · rw [if_pos ht]
    constructor
    · intro hc; exact VScan.noConfusion hc
    · rintro ⟨_, hle⟩; omega
  · rw [if_neg ht]
    have hle : env.scanTicks ≤ t := by omega
    cases ho : env.outcome with
    | clean => simp [hle]
    | infected s => simp
    | failed m => simp

/-- The poll loop never runs past its iteration budget. -/
theorem pollLoop_le (env : FileService.ChainEnv) :
    ∀ k t, FileService.pollLoop env k t ≤ t + k := by
  intro k
  induction k with
  | zero => intro t; simp [FileService.pollLoop]
  | succ k ih =>
    intro t
    simp only [FileService.pollLoop]
    split
    · omega
    · have := ih (t + 1); omega

/-- For a clean verdict still pending at tick t, the poll loop ends at the
scan completion tick, capped by its iteration budget. -/
theorem pollLoop_clean (env : FileService.ChainEnv)
    (hc : env.outcome = FileService.ScanOutcome.clean) :
    ∀ k t, t < env.scanTicks →
      FileService.pollLoop env k t = min env.scanTicks (t + k) := by
  intro k
  induction k with
  | zero =>
    intro t ht
    simp only [FileService.pollLoop]
    omega
  | succ k ih =>
    intro t ht
    simp only [FileService.pollLoop]
    by_cases hb : env.scanTicks ≤ t + 1
    · have hst : FileService.scanStatusAt env (t + 1) = VScan.clean :=
        (scanStatusAt_eq_clean_iff env (t + 1)).mpr ⟨hc, hb⟩
      rw [if_pos (Or.inl hst)]
      omega
    · have hst : FileService.scanStatusAt env (t + 1) = VScan.scanning := by
        unfold FileService.scanStatusAt
        rw [if_pos (by omega)]
      have hcond : ¬ (FileService.scanStatusAt env (t + 1) = VScan.clean ∨
          FileService.scanStatusAt env (t + 1) = VScan.error) := by
        rw [hst]
        rintro (h | h) <;> exact VScan.noConfusion h
      rw [if_neg hcond, ih (t + 1) (by omega)]
      omega

/-- The re-read tick never exceeds the 30-iteration budget. -/
theorem refetchTick_le (env : FileService.ChainEnv) :
    FileService.refetchTick env ≤ 30 := by
  unfold FileService.refetchTick
  split
  · have := pollLoop_le env 30 0; omega
  · omega

/-- With a clean verdict arriving within the budget, the scan has finished
by the re-read tick. -/
theorem scanTicks_le_refetch (env : FileService.ChainEnv)
    (hc : env.outcome = FileService.ScanOutcome.clean)
    (h30 : env.scanTicks ≤ 30) :
    env.scanTicks ≤ FileService.refetchTick env := by
  unfold FileService.refetchTick
  by_cases h0 : env.scanTicks = 0
  · rw [h0]; omega
  · have hpos : 0 < env.scanTicks := Nat.pos_of_ne_zero h0
    have hst0 : FileService.scanStatusAt env 0 = VScan.scanning := by
      unfold FileService.scanStatusAt
      rw [if_pos hpos]
    rw [if_pos (Or.inr hst0), pollLoop_clean env hc 30 0 hpos]
    omega

/-- The re-read observes a clean status exactly when the verdict is clean
and the scan finishes within the 30-tick poll ceiling. -/
theorem refetch_clean_iff (env : FileService.ChainEnv) :
    FileService.scanStatusAt env (FileService.refetchTick env) = VScan.clean
      ↔ (env.outcome = FileService.ScanOutcome.clean ∧ env.scanTicks ≤ 30) := by
  rw [scanStatusAt_eq_clean_iff]
  constructor
  · rintro ⟨hc, hle⟩
    exact ⟨hc, le_trans hle (refetchTick_le env)⟩
  · rintro ⟨hc, h30⟩
    exact ⟨hc, scanTicks_le_refetch env hc h30⟩

/-- Once the retry loop runs on an existing row, the row ends FAILED or
SYNCED: never PENDING. -/
theorem uploadAttempts_terminal (upl : Nat → Except String (String × String))
    (fid folderId : String) (l : List Nat) :
    ∀ (db : DB) (ds : DriveState) (le : Option String),
      (findFile db fid).isSome = true →
      (syncStatusOf (DriveService.uploadAttempts upl fid folderId l db ds le).1 fid
          = some DSync.FAILED ∨
       syncStatusOf (DriveService.uploadAttempts upl fid folderId l db ds le).1 fid
          = some DSync.SYNCED) := by
  induction l with
  | nil =>
    intro db ds le hsome
    left
    unfold syncStatusOf
    simp only [DriveService.uploadAttempts]
    rw [findFile_updateFile _ _ (DriveService.markFailed _) (fun f => rfl)]
    cases hf : findFile db fid with
    | none => rw [hf] at hsome; cases hsome
    | some f0 => rfl
  | cons a rest ih =>
    intro db ds le hsome
    simp only [DriveService.uploadAttempts]
    cases hu : upl a with
    | ok pr =>
      right
      unfold syncStatusOf
      rw [findFile_logDriveSync,
        findFile_updateFile _ _ (DriveService.markSynced pr) (fun f => rfl),
        findFile_logDriveSync,
        findFile_updateFile _ _ (DriveService.markSyncing a) (fun f => rfl)]
      cases hf : findFile db fid with
      | none => rw [hf] at hsome; cases hsome
      | some f0 => rfl
    | error e =>
      apply ih
      rw [findFile_logDriveSync, findFile_logDriveSync,
        findFile_updateFile _ _ (DriveService.markSyncing a) (fun f => rfl),
        Option.isSome_map']
      exact hsome

/-!
## Claim C1
-/

/-- Claim C1: when the scanner verdict is not clean (infected or an
operational scan error, or a scan that never reports clean), the background
chain performs no remote upload, leaves the Drive state untouched, and the
sync status of the file stays PENDING; moreover the manual retry entry
point rejects a PENDING file without changing anything, so only an
external reset could ever unblock it. -/
theorem sync_gated_on_clean_scan (env : FileService.ChainEnv) (fid fp : String)
    (db : DB) (disk : Disk) (ds : DriveState)
    (hstat : syncStatusOf db fid = some DSync.PENDING)
    (hout : env.outcome ≠ FileService.ScanOutcome.clean) :
    syncStatusOf (FileService.runChain env fid fp db disk ds).1 fid = some DSync.PENDING ∧
    (FileService.runChain env fid fp db disk ds).2.2 = ds ∧
    DriveService.retryFailedSync env.upl fid db ds
      = (db, ds, Except.error "File is not in failed state") := by
  have hnc : FileService.scanStatusAt env (FileService.refetchTick env) ≠ VScan.clean := by
    intro hc
    exact hout ((scanStatusAt_eq_clean_iff env _).mp hc).1
  obtain ⟨f0, hf0⟩ : ∃ f0, findFile db fid = some f0 := by
    unfold syncStatusOf at hstat
    cases h : findFile db fid with
    | none => rw [h] at hstat; cases hstat
    | some f0 => exact ⟨f0, rfl⟩
  have hf0p : f0.driveSyncStatus = DSync.PENDING := by
    unfold syncStatusOf at hstat
    rw [hf0] at hstat
    simpa using hstat
  have hres : FileService.uploadToDriveAsync env fid
      (updateFile db fid (FileService.recordVerdict env.outcome)) ds
      = (updateFile db fid (FileService.recordVerdict env.outcome), ds) := by
    unfold FileService.uploadToDriveAsync
    cases hff : findFile (updateFile db fid (FileService.recordVerdict env.outcome)) fid with
    | none => rfl
    | some f1 => simp only [if_neg hnc]
  have hchain1 : (FileService.runChain env fid fp db disk ds).1
      = (FileService.uploadToDriveAsync env fid
          (updateFile db fid (FileService.recordVerdict env.outcome)) ds).1 := rfl
  have hchain2 : (FileService.runChain env fid fp db disk ds).2.2
      = (FileService.uploadToDriveAsync env fid
          (updateFile db fid (FileService.recordVerdict env.outcome)) ds).2 := rfl
  refine ⟨?_, ?_, ?_⟩
  · rw [hchain1, hres]
    unfold syncStatusOf
    rw [findFile_updateFile _ _ _ (recordVerdict_id env.outcome), hf0]
    simp [recordVerdict_syncStatus, hf0p]
  · rw [hchain2, hres]
  · have hne : f0.driveSyncStatus ≠ DSync.FAILED := by
      rw [hf0p]
      exact fun h => DSync.noConfusion h
    simp only [DriveService.retryFailedSync, hf0, if_pos hne]

/-- Witness for claim C1 at a concrete infected chain. -/
theorem sync_gated_on_clean_scan_witness :
    syncStatusOf (FileService.runChain envInfected "fA" "uploads/fA.pdf" chainDB [] dsA).1 "fA"
      = some DSync.PENDING ∧
    (FileService.runChain envInfected "fA" "uploads/fA.pdf" chainDB [] dsA).2.2 = dsA ∧
    DriveService.retryFailedSync envInfected.upl "fA" chainDB dsA
      = (chainDB, dsA, Except.error "File is not in failed state") :=
  sync_gated_on_clean_scan envInfected "fA" "uploads/fA.pdf" chainDB [] dsA
    (by decide) (by decide)

/-!
## Claim C6
-/

/-- Claim C6 counterexample: a clean scan that completes one tick after the
30-tick poll ceiling: the verdict is stored as clean, yet the sync never
starts: the status stays PENDING and the Drive state is untouched. -/
theorem clean_scan_after_ceiling_never_syncs :
    scanStatusOf (FileService.runChain envLateClean "fA" "uploads/fA.pdf" chainDB [] dsA).1 "fA"
      = some VScan.clean ∧
    syncStatusOf (FileService.runChain envLateClean "fA" "uploads/fA.pdf" chainDB [] dsA).1 "fA"
      = some DSync.PENDING ∧
    (FileService.runChain envLateClean "fA" "uploads/fA.pdf" chainDB [] dsA).2.2 = dsA := by
  refine ⟨by decide, by decide, by decide⟩

/-- Claim C6 amended: the handoff from scan to sync is the bounded
30-iteration one-second poll loop, not a completion trigger: on a one-file
state with a provisioned folder, the sync leaves PENDING exactly when the
verdict is clean and the scan finishes within the 30-tick ceiling; a clean
scan finishing later leaves the file PENDING forever. -/
theorem sync_runs_iff_clean_within_poll_ceiling
    (env : FileService.ChainEnv) (fid sid folderId : String) :
    syncStatusOf
        (FileService.runChain env fid "uploads/x.pdf" (initDB fid sid folderId) [] dsEmpty).1
        fid
        ≠ some DSync.PENDING
      ↔ (env.outcome = FileService.ScanOutcome.clean ∧ env.scanTicks ≤ 30) := by
  have hfind0 : findFile (initDB fid sid folderId) fid = some (initFile fid sid) := by
    unfold findFile initDB
    simp [initFile, List.find?]
  have hfind1 : findFile
      (updateFile (initDB fid sid folderId) fid (FileService.recordVerdict env.outcome)) fid
      = some (FileService.recordVerdict env.outcome (initFile fid sid)) := by
    rw [findFile_updateFile _ _ _ (recordVerdict_id env.outcome), hfind0]
    rfl
  have hchain : (FileService.runChain env fid "uploads/x.pdf" (initDB fid sid folderId) []
      dsEmpty).1
      = (FileService.uploadToDriveAsync env fid
          (updateFile (initDB fid sid folderId) fid (FileService.recordVerdict env.outcome))
          dsEmpty).1 := rfl
  by_cases hcln : FileService.scanStatusAt env (FileService.refetchTick env) = VScan.clean
  · constructor
    · intro _
      exact (refetch_clean_iff env).mp hcln
    · intro _
      have hsub : (FileService.recordVerdict env.outcome (initFile fid sid)).submissionId
          = sid := by
        rw [recordVerdict_submissionId]
        rfl
      have hsf : DriveService.submissionFolder
          (updateFile (initDB fid sid folderId) fid (FileService.recordVerdict env.outcome))
          sid = some folderId := by
        show DriveService.submissionFolder (initDB fid sid folderId) sid = some folderId
        unfold DriveService.submissionFolder findSubmission initDB
        simp [List.find?]
      have hres : (FileService.uploadToDriveAsync env fid
          (updateFile (initDB fid sid folderId) fid (FileService.recordVerdict env.outcome))
          dsEmpty).1
          = (DriveService.uploadFile env.upl sid fid
              (updateFile (initDB fid sid folderId) fid
                (FileService.recordVerdict env.outcome)) dsEmpty).1 := by
        unfold FileService.uploadToDriveAsync
        rw [hfind1]
        simp only [if_pos hcln]
        rw [hsub]
      rw [hchain, hres]
      unfold DriveService.uploadFile
      rw [hsf]
      have hterm := uploadAttempts_terminal env.upl fid folderId
        (List.range' 1 DriveService.maxRetries)
        (updateFile (initDB fid sid folderId) fid (FileService.recordVerdict env.outcome))
        dsEmpty none (by rw [hfind1]; rfl)
      rcases hterm with h | h <;> rw [h] <;> simp
  · have hres : (FileService.uploadToDriveAsync env fid
        (updateFile (initDB fid sid folderId) fid (FileService.recordVerdict env.outcome))
        dsEmpty).1
        = updateFile (initDB fid sid folderId) fid (FileService.recordVerdict env.outcome) := by
      unfold FileService.uploadToDriveAsync
      rw [hfind1]
      simp only [if_neg hcln]
    have hstat : syncStatusOf
        (FileService.runChain env fid "uploads/x.pdf" (initDB fid sid folderId) [] dsEmpty).1
        fid = some DSync.PENDING := by
      rw [hchain, hres]
      unfold syncStatusOf
      rw [hfind1]
      simp [recordVerdict_syncStatus, initFile]
    constructor
    · intro hne
      exact absurd hstat hne
    · intro hrhs
      exact absurd ((refetch_clean_iff env).mpr hrhs) hcln

/-- Witness for claim C6: an immediately clean scan with failing uploads
still leaves PENDING (it ends FAILED), as the equivalence requires. -/
theorem sync_runs_iff_clean_within_poll_ceiling_witness :
    syncStatusOf
        (FileService.runChain envAllFail "fW" "uploads/x.pdf" (initDB "fW" "sW" "folderW") []
          dsEmpty).1 "fW"
      ≠ some DSync.PENDING :=
  (sync_runs_iff_clean_within_poll_ceiling envAllFail "fW" "sW" "folderW").mpr
    ⟨rfl, by decide⟩

/-!
## Claim C3 witness
-/

/-- Witness for claim C3 at a concrete faulted write. -/
theorem upload_direct_write_behavior_witness :
    (FileService.uploadFile c3dto dbEmpty [] "u9" (some 1)).2.2
      = Except.error "I/O write failed" :=
  ((upload_direct_write_behavior c3dto dbEmpty [] "u9" 1 (by decide) (by decide)
    (by decide)).1).2.1

/-- Claim C8 failing input: the submission already holds 200MB, so
validateTotalSize rejects one more byte, yet uploadFile never invokes that
check: it stores the bytes and creates the record. -/
theorem upload_accepts_over_quota_submission :
    FileService.validateTotalSize c8db "s8" c8dto.buffer.length
      = Except.error "Total file size exceeds maximum of 200MB" ∧
    ((FileService.uploadFile c8dto c8db [] "u8" none).2.1).files.length
      = c8db.files.length + 1 ∧
    diskGet (FileService.uploadFile c8dto c8db [] "u8" none).1
        (FileService.publishedPath c8dto "u8") = some c8dto.buffer := by
  refine ⟨rfl, rfl, rfl⟩

end RefSys
